import Mathlib

/-!
Verification of `src/utils/coco_annotator_utils.py` (COCO dataset-preparation
utilities: a materializer, a proportional splitter, and a balanced splitter).

The Python code is embedded shallowly:
* COCO records become Lean structures; fields of the records that the code
  never inspects are carried as opaque payload fields.
* The random shuffle `rd.sample(data['images'], num_images)` is modelled by
  passing the shuffled list as an explicit argument; theorems quantify over
  any list that is a permutation of the input images.
* Python floats in the split fractions are modelled as exact rationals `ℚ`;
  `int(x)` is truncation toward zero (`pyInt`).
* Filesystem interaction (file existence, directory existence, writes) is
  modelled by explicit boolean inputs and by returning the data that would be
  written; assertion failures and the early return on an existing output
  directory become constructors of a result type.
-/

/-- An image record of a COCO snapshot: the code reads `id`, `file_name` and
`path`. -/
structure Image where
  id : Nat
  file_name : String
  path : String
deriving DecidableEq, Repr

/-- A COCO annotation record (named `Anno`, after the `anno` variables of the
source). The code reads `image_id` and `category_id` and writes
`category_id`; all remaining keys of the record are carried opaquely in
`rest`. -/
structure Anno where
  image_id : Nat
  category_id : Nat
  rest : String
deriving DecidableEq, Repr

/-- A COCO category record. The code reads `id` and otherwise passes records
through; the synthetic supercategory record carries these exact keys. -/
structure Category where
  id : Nat
  name : String
  supercat : String
  color : String
  metadata : List (String × String)
deriving DecidableEq, Repr

/-- A dataset snapshot `{images, annotations, categories}`: the unit of input
and of each written JSON file. -/
structure Snapshot where
  images : List Image
  annotations : List Anno
  categories : List Category
deriving DecidableEq, Repr

/-- Python `int(q)` on a rational: truncation toward zero. For the
non-negative products appearing in the splitter it coincides with `⌊q⌋`. -/
def pyInt (q : ℚ) : ℤ :=
  if q < 0 then -⌊-q⌋ else ⌊q⌋

/-- The quantity `num_train = int(num_images * split[0])` of `create_dataset_split`. -/
def num_train_of (num_images : ℕ) (split : ℚ × ℚ × ℚ) : ℤ :=
  pyInt ((num_images : ℚ) * split.1)

/-- The quantity `num_val = int(num_images * split[1])` of `create_dataset_split`. -/
def num_val_of (num_images : ℕ) (split : ℚ × ℚ × ℚ) : ℤ :=
  pyInt ((num_images : ℚ) * split.2.1)

/-- The quantity `num_test = num_images - num_train - num_val` of `create_dataset_split`. -/
def num_test_of (num_images : ℕ) (split : ℚ × ℚ × ℚ) : ℤ :=
  (num_images : ℤ) - num_train_of num_images split - num_val_of num_images split

/-- The single synthetic category written when the supercategory option is
enabled: `{"id": 1, "name": single_label, "supercategory": "", "color":
"#df3ccd", "metadata": {}}`. -/
def single_supercategory (single_label : String) : Category :=
  { id := 1, name := single_label, supercat := "", color := "#df3ccd", metadata := [] }

/-- The three snapshots written to `training.json`, `validation.json` and
`test.json` by `create_dataset_split`. -/
structure SplitOutput where
  train_dict : Snapshot
  val_dict : Snapshot
  test_dict : Snapshot
deriving DecidableEq, Repr

/-- The body of `create_dataset_split` after the JSON file is loaded.
`shuffled_imgs` stands for `rd.sample(data['images'], num_images)`, a
permutation of the snapshot's images supplied as an argument. The slice
bounds `[:num_train]`, `[num_train:num_train+num_val]`,
`[num_train+num_val:num_images]` are Python slices at the non-negative
indices produced by valid splits; negative-index slicing is outside the
modelled domain. -/
def create_dataset_split_core (shuffled_imgs : List Image) (annotations : List Anno)
    (categories : List Category) (split : ℚ × ℚ × ℚ) (supercategory : Bool × String) :
    SplitOutput :=
  let num_images := shuffled_imgs.length
  let num_train := (num_train_of num_images split).toNat
  let num_val := (num_val_of num_images split).toNat
  let imgs_train := shuffled_imgs.take num_train
  let img_ids_train := imgs_train.map Image.id
  let imgs_val := (shuffled_imgs.drop num_train).take num_val
  let img_ids_val := imgs_val.map Image.id
  let imgs_test := shuffled_imgs.drop (num_train + num_val)
  let img_ids_test := imgs_test.map Image.id
  let categ_all :=
    if supercategory.1 = true then [single_supercategory supercategory.2]
    else categories
  let annos :=
    if supercategory.1 = true then
      annotations.map (fun anno => { anno with category_id := 1 })
    else annotations
  let anno_train := annos.filter (fun anno => decide (anno.image_id ∈ img_ids_train))
  let anno_val := annos.filter (fun anno => decide (anno.image_id ∈ img_ids_val))
  let anno_test := annos.filter (fun anno => decide (anno.image_id ∈ img_ids_test))
  { train_dict := { images := imgs_train, annotations := anno_train, categories := categ_all }
    val_dict := { images := imgs_val, annotations := anno_val, categories := categ_all }
    test_dict := { images := imgs_test, annotations := anno_test, categories := categ_all } }

/-- Result of running `create_dataset_split` against the filesystem: a failed
`assert` (carrying its message, nothing written), the early `return` taken
when the output directory already exists (nothing written), or completion
with the three written snapshots. -/
inductive SplitResult where
  | assertionFailure (msg : String)
  | earlyReturn
  | completed (out : SplitOutput)
deriving DecidableEq, Repr

/-- The function `create_dataset_split` with the filesystem state made explicit: first the
`assert` on file existence, then the `assert` that `sum(split) == 1`
(exact equality), then the early return when `output_dir` exists, then the
body. -/
def create_dataset_split_run (file_exists : Bool) (output_dir_exists : Bool)
    (shuffled_imgs : List Image) (annotations : List Anno) (categories : List Category)
    (split : ℚ × ℚ × ℚ) (supercategory : Bool × String) : SplitResult :=
  if ¬ file_exists then .assertionFailure "JSON file doesn't exist!"
  else if ¬ (split.1 + split.2.1 + split.2.2 = 1) then
    .assertionFailure "Incorrect Split, please make [train,val,test] sum to 1"
  else if output_dir_exists then .earlyReturn
  else .completed (create_dataset_split_core shuffled_imgs annotations categories split supercategory)

/-- Result of running `create_dataset_from_annotations`: a failed `assert`,
the early return on an existing output directory, or completion with the
list of copies performed (source path with its first character stripped,
destination under `images/`) plus the copied JSON file name. -/
inductive MaterializeResult where
  | assertionFailure (msg : String)
  | earlyReturn
  | completed (copies : List (String × String)) (json_copy : String)
deriving DecidableEq, Repr

/-- The function `create_dataset_from_annotations` with the filesystem made explicit:
`assert os.path.isfile(json_file)`, then the early return when `output_dir`
exists, else copy each image from `i['path'][1:]` to
`output_dir + 'images/' + i['file_name']` and copy the JSON file. -/
def create_dataset_from_annotations_run (file_exists : Bool) (output_dir_exists : Bool)
    (json_file : String) (output_dir : String) (data : Snapshot) : MaterializeResult :=
  if ¬ file_exists then .assertionFailure "JSON file doesn't exist!"
  else if output_dir_exists then .earlyReturn
  else .completed
    (data.images.map (fun i => (i.path.drop 1, output_dir ++ "images/" ++ i.file_name)))
    json_file

/-- State threaded through the image loop of `create_dataset_split_balanced`:
the per-category counter dictionary `cat_count` (initialised to 0 on every
key; lookups of category ids absent from `data['categories']` would raise
`KeyError` in Python, so theorems restrict to snapshots whose annotation
category ids all occur among the categories), the `imgs_without_anno` bucket
and the accumulating `imgs_test` list. -/
structure BalState where
  cat_count : Nat → Nat
  imgs_without_anno : List Image
  imgs_test : List Image

/-- The update `cat_count[cat] = cat_count[cat] + 1` as a pointwise function update. -/
def bump_count (cat_count : Nat → Nat) (cat : Nat) : Nat → Nat :=
  fun c => if c = cat then cat_count cat + 1 else cat_count c

/-- One iteration of the `for img in shuffled_imgs` loop of
`create_dataset_split_balanced`: collect the image's annotations, take the
list of their category ids (duplicates kept), skip via `continue` when some
counter already equals the literal `7`, otherwise append to `imgs_test`
(incrementing each category's counter once per occurrence) or, when the
image has no annotations, to `imgs_without_anno`. -/
def balanced_step (annotations : List Anno) (st : BalState) (img : Image) : BalState :=
  let annos := annotations.filter (fun anno => decide (anno.image_id = img.id))
  let cats := annos.map Anno.category_id
  if cats.any (fun cat => decide (st.cat_count cat = 7)) then st
  else if cats.length > 0 then
    { st with cat_count := cats.foldl bump_count st.cat_count
              imgs_test := st.imgs_test ++ [img] }
  else
    { st with imgs_without_anno := st.imgs_without_anno ++ [img] }

/-- The whole image loop of `create_dataset_split_balanced`, starting from
the all-zero counters and empty lists. -/
def balanced_scan (annotations : List Anno) (shuffled_imgs : List Image) : BalState :=
  shuffled_imgs.foldl (balanced_step annotations) ⟨fun _ => 0, [], []⟩

/-- The data produced by `create_dataset_split_balanced`: the snapshots
written to `training.json` and `test.json`, and the discarded
`imgs_without_anno` bucket (kept for stating partition properties). -/
structure BalancedOutput where
  train_dict : Snapshot
  test_dict : Snapshot
  imgs_without_anno : List Image
deriving DecidableEq, Repr

/-- The body of `create_dataset_split_balanced` after loading the JSON, with
the shuffle `rd.sample(data['images'], num_images)` passed in as
`shuffled_imgs`. The parameter `num_testimages_per_class` is accepted but —
as in the source, where its only use is commented out and the skip test
hard-codes `7` — never read. `imgs_train` is every shuffled image that is in
neither `imgs_test` nor `imgs_without_anno` (Python `not in`, i.e. value
equality). -/
def create_dataset_split_balanced_core (shuffled_imgs : List Image)
    (annotations : List Anno) (categories : List Category)
    (num_testimages_per_class : Nat) : BalancedOutput :=
  let st := balanced_scan annotations shuffled_imgs
  let imgs_without_anno := st.imgs_without_anno
  let imgs_test := st.imgs_test
  let imgs_temp := shuffled_imgs.filter (fun x => decide (x ∉ imgs_test))
  let imgs_train := imgs_temp.filter (fun x => decide (x ∉ imgs_without_anno))
  let img_ids_train := imgs_train.map Image.id
  let img_ids_test := imgs_test.map Image.id
  let categ_all := categories
  let anno_train := annotations.filter (fun anno => decide (anno.image_id ∈ img_ids_train))
  let anno_test := annotations.filter (fun anno => decide (anno.image_id ∈ img_ids_test))
  { train_dict := { images := imgs_train, annotations := anno_train, categories := categ_all }
    test_dict := { images := imgs_test, annotations := anno_test, categories := categ_all }
    imgs_without_anno := imgs_without_anno }

/-! ### Helper lemmas -/

lemma pyInt_of_nonneg {q : ℚ} (h : 0 ≤ q) : pyInt q = ⌊q⌋ := by
  simp [pyInt, not_lt.mpr h]

lemma three_slices_append (l : List Image) (a b : ℕ) :
    l.take a ++ ((l.drop a).take b ++ l.drop (a + b)) = l := by
  rw [← List.drop_drop, List.take_append_drop, List.take_append_drop]

lemma balanced_step_cases (annotations : List Anno) (st : BalState) (img : Image) :
    balanced_step annotations st img = st ∨
    ((balanced_step annotations st img).imgs_test = st.imgs_test ++ [img] ∧
      (balanced_step annotations st img).imgs_without_anno = st.imgs_without_anno) ∨
    ((balanced_step annotations st img).imgs_test = st.imgs_test ∧
      (balanced_step annotations st img).imgs_without_anno = st.imgs_without_anno ++ [img]) := by
  rw [balanced_step]
  split
  · exact Or.inl rfl
  · split
    · exact Or.inr (Or.inl ⟨rfl, rfl⟩)
    · exact Or.inr (Or.inr ⟨rfl, rfl⟩)

/-- The image loop only appends: the final `imgs_test` and
`imgs_without_anno` extend the initial ones by lists drawn without
repetition (as a multiset) from the iterated images. -/
lemma balanced_foldl_shape (annotations : List Anno) (l : List Image) :
    ∀ st : BalState,
      ∃ t w : List Image,
        (l.foldl (balanced_step annotations) st).imgs_test = st.imgs_test ++ t ∧
        (l.foldl (balanced_step annotations) st).imgs_without_anno = st.imgs_without_anno ++ w ∧
        (t : Multiset Image) + (w : Multiset Image) ≤ (l : Multiset Image) := by
  induction l with
  | nil => exact fun st => ⟨[], [], by simp, by simp, by simp⟩
  | cons x xs ih =>
    intro st
    obtain ⟨t, w, h1, h2, h3⟩ := ih (balanced_step annotations st x)
    rw [List.foldl_cons] at *
    rcases balanced_step_cases annotations st x with h | ⟨ht, hw⟩ | ⟨ht, hw⟩
    · exact ⟨t, w, by rw [h1, h], by rw [h2, h],
        le_trans h3 (by rw [← Multiset.cons_coe]; exact Multiset.le_cons_self _ x)⟩
    · refine ⟨x :: t, w, ?_, ?_, ?_⟩
      · rw [h1, ht, List.append_assoc, List.singleton_append]
      · rw [h2, hw]
      · rw [← Multiset.cons_coe, ← Multiset.cons_coe, Multiset.cons_add]
        exact Multiset.cons_le_cons x h3
    · refine ⟨t, x :: w, ?_, ?_, ?_⟩
      · rw [h1, ht]
      · rw [h2, hw, List.append_assoc, List.singleton_append]
      · rw [← Multiset.cons_coe, ← Multiset.cons_coe, Multiset.add_cons]
        exact Multiset.cons_le_cons x h3

/-- Specialisation of `balanced_foldl_shape` to the whole scan: test images
plus no-annotation images form a sub-multiset of the shuffled images. -/
lemma balanced_scan_le (annotations : List Anno) (shuffled_imgs : List Image) :
    ((balanced_scan annotations shuffled_imgs).imgs_test : Multiset Image) +
      ((balanced_scan annotations shuffled_imgs).imgs_without_anno : Multiset Image) ≤
      (shuffled_imgs : Multiset Image) := by
  obtain ⟨t, w, h1, h2, h3⟩ :=
    balanced_foldl_shape annotations shuffled_imgs ⟨fun _ => 0, [], []⟩
  simp only [List.nil_append] at h1 h2
  rw [balanced_scan, h1, h2]
  exact h3

/-- An iterated image with no matching annotations always lands in the
`imgs_without_anno` bucket. -/
lemma mem_without_anno_of_no_annos (annotations : List Anno) (l : List Image) :
    ∀ (st : BalState) (img : Image), img ∈ l →
      annotations.filter (fun anno => decide (anno.image_id = img.id)) = [] →
      img ∈ (l.foldl (balanced_step annotations) st).imgs_without_anno := by
  induction l with
  | nil => exact fun st img h => absurd h (List.not_mem_nil img)
  | cons x xs ih =>
    intro st img hmem hnone
    rw [List.foldl_cons]
    rcases List.mem_cons.mp hmem with rfl | hmem'
    · have hstep : (balanced_step annotations st img).imgs_without_anno
          = st.imgs_without_anno ++ [img] := by
        rw [balanced_step, hnone]
        simp
      obtain ⟨t, w, h1, h2, h3⟩ :=
        balanced_foldl_shape annotations xs (balanced_step annotations st img)
      rw [h2, hstep]
      simp
    · exact ih _ img hmem' hnone

/-- If an image occurs in neither the state's lists nor the remaining
iterated images, the scan never assigns it to `imgs_test` or
`imgs_without_anno`. -/
lemma not_mem_scan_output (annotations : List Anno) (l : List Image) (st : BalState)
    (img : Image) (hl : img ∉ l) :
    (img ∉ st.imgs_test → img ∉ (l.foldl (balanced_step annotations) st).imgs_test) ∧
    (img ∉ st.imgs_without_anno →
      img ∉ (l.foldl (balanced_step annotations) st).imgs_without_anno) := by
  obtain ⟨t, w, h1, h2, h3⟩ := balanced_foldl_shape annotations l st
  have htsub : t ⊆ l :=
    Multiset.coe_subset.mp (Multiset.subset_of_le (le_trans (Multiset.le_add_right _ _) h3))
  have hwsub : w ⊆ l :=
    Multiset.coe_subset.mp (Multiset.subset_of_le (le_trans (Multiset.le_add_left _ _) h3))
  constructor
  · intro hst hmem
    rw [h1] at hmem
    rcases List.mem_append.mp hmem with h | h
    · exact hst h
    · exact hl (htsub h)
  · intro hst hmem
    rw [h2] at hmem
    rcases List.mem_append.mp hmem with h | h
    · exact hst h
    · exact hl (hwsub h)

/-- For a duplicate-free image list, the training selection plus the test
selection plus the no-annotation bucket is a permutation of the whole
shuffled list. -/
lemma balanced_partition_perm (annotations : List Anno) (shuffled_imgs : List Image)
    (hnodup : shuffled_imgs.Nodup) :
    ((shuffled_imgs.filter
        (fun x => decide (x ∉ (balanced_scan annotations shuffled_imgs).imgs_test))).filter
          (fun x => decide (x ∉ (balanced_scan annotations shuffled_imgs).imgs_without_anno)) ++
        ((balanced_scan annotations shuffled_imgs).imgs_test ++
          (balanced_scan annotations shuffled_imgs).imgs_without_anno)).Perm shuffled_imgs := by
  have hle := balanced_scan_le annotations shuffled_imgs
  rw [Multiset.coe_add] at hle
  have hTWsub : (balanced_scan annotations shuffled_imgs).imgs_test ++
      (balanced_scan annotations shuffled_imgs).imgs_without_anno ⊆ shuffled_imgs :=
    Multiset.coe_subset.mp (Multiset.subset_of_le hle)
  have hTWnodup : ((balanced_scan annotations shuffled_imgs).imgs_test ++
      (balanced_scan annotations shuffled_imgs).imgs_without_anno).Nodup :=
    Multiset.coe_nodup.mp (Multiset.nodup_of_le hle (Multiset.coe_nodup.mpr hnodup))
  rw [List.filter_filter]
  have hcompl : (shuffled_imgs.filter
      (fun x => !(decide (x ∉ (balanced_scan annotations shuffled_imgs).imgs_without_anno) &&
        decide (x ∉ (balanced_scan annotations shuffled_imgs).imgs_test)))).Perm
      ((balanced_scan annotations shuffled_imgs).imgs_test ++
        (balanced_scan annotations shuffled_imgs).imgs_without_anno) := by
    refine List.perm_of_nodup_nodup_toFinset_eq (hnodup.filter _) hTWnodup ?_
    ext x
    simp only [List.mem_toFinset, List.mem_filter, List.mem_append, Bool.not_and,
      Bool.or_eq_true, Bool.not_eq_true', decide_eq_false_iff_not, not_not]
    constructor
    · rintro ⟨-, h⟩
      tauto
    · intro h
      refine ⟨hTWsub (List.mem_append.mpr h), ?_⟩
      tauto
  exact (List.Perm.append_left _ hcompl.symm).trans
    (List.filter_append_perm _ shuffled_imgs)

/-! ### Claims about the proportional splitter -/

/-- Claim C1: for every snapshot, `create_dataset_split` slices a permutation
of the image list into three contiguous blocks (train, then validation, then
test), so for unique image ids the three subsets' image-id lists together are
a permutation of the full id list and every id occurs in exactly one
subset — no overlap, no omission. -/
theorem claim_C1_split_partition (images shuffled_imgs : List Image)
    (annotations : List Anno) (categories : List Category) (split : ℚ × ℚ × ℚ)
    (supercategory : Bool × String)
    (hperm : shuffled_imgs.Perm images)
    (hids : (images.map Image.id).Nodup)
    (h0 : 0 ≤ split.1) (h1 : 0 ≤ split.2.1) :
    ((create_dataset_split_core shuffled_imgs annotations categories split supercategory).train_dict.images ++
        ((create_dataset_split_core shuffled_imgs annotations categories split supercategory).val_dict.images ++
          (create_dataset_split_core shuffled_imgs annotations categories split supercategory).test_dict.images)
      = shuffled_imgs) ∧
    (((create_dataset_split_core shuffled_imgs annotations categories split supercategory).train_dict.images.map Image.id) ++
        (((create_dataset_split_core shuffled_imgs annotations categories split supercategory).val_dict.images.map Image.id) ++
          ((create_dataset_split_core shuffled_imgs annotations categories split supercategory).test_dict.images.map Image.id))).Perm
      (images.map Image.id) ∧
    (∀ i ∈ images.map Image.id,
      ((create_dataset_split_core shuffled_imgs annotations categories split supercategory).train_dict.images.map Image.id).count i +
        ((create_dataset_split_core shuffled_imgs annotations categories split supercategory).val_dict.images.map Image.id).count i +
        ((create_dataset_split_core shuffled_imgs annotations categories split supercategory).test_dict.images.map Image.id).count i = 1) := by
  have hcat : (create_dataset_split_core shuffled_imgs annotations categories split supercategory).train_dict.images ++
      ((create_dataset_split_core shuffled_imgs annotations categories split supercategory).val_dict.images ++
        (create_dataset_split_core shuffled_imgs annotations categories split supercategory).test_dict.images)
      = shuffled_imgs := by
    simp only [create_dataset_split_core]
    exact three_slices_append shuffled_imgs _ _
  have hmap : (((create_dataset_split_core shuffled_imgs annotations categories split supercategory).train_dict.images.map Image.id) ++
      (((create_dataset_split_core shuffled_imgs annotations categories split supercategory).val_dict.images.map Image.id) ++
        ((create_dataset_split_core shuffled_imgs annotations categories split supercategory).test_dict.images.map Image.id))).Perm
      (images.map Image.id) := by
    rw [← List.map_append, ← List.map_append, hcat]
    exact hperm.map Image.id
  refine ⟨hcat, hmap, ?_⟩
  intro i hi
  have hcount := hmap.count_eq i
  rw [List.count_append, List.count_append] at hcount
  rw [List.count_eq_one_of_mem hids hi] at hcount
  omega

/-- Witness for claim C1 at a concrete two-image snapshot with the identity
shuffle and split `[1, 0, 0]`. -/
theorem claim_C1_witness :
    (create_dataset_split_core [⟨1, "a", "pa"⟩, ⟨2, "b", "pb"⟩] [] [] (1, (0, 0)) (false, "")).train_dict.images ++
        ((create_dataset_split_core [⟨1, "a", "pa"⟩, ⟨2, "b", "pb"⟩] [] [] (1, (0, 0)) (false, "")).val_dict.images ++
          (create_dataset_split_core [⟨1, "a", "pa"⟩, ⟨2, "b", "pb"⟩] [] [] (1, (0, 0)) (false, "")).test_dict.images)
      = [⟨1, "a", "pa"⟩, ⟨2, "b", "pb"⟩] :=
  (claim_C1_split_partition [⟨1, "a", "pa"⟩, ⟨2, "b", "pb"⟩] [⟨1, "a", "pa"⟩, ⟨2, "b", "pb"⟩]
    [] [] (1, (0, 0)) (false, "") (List.Perm.refl _) (by decide) zero_le_one (le_refl 0)).1

/-- Claim C2: `create_dataset_split` computes `num_train = ⌊N·split₀⌋`,
`num_val = ⌊N·split₁⌋` and `num_test = N - num_train - num_val`, so for every
valid split (non-negative fractions summing to 1) the three sizes are
non-negative and sum to `N`; in particular `split = [0.7, 0.15, 0.15]` and
`N = 101` give sizes 70, 15 and 16. -/
theorem claim_C2_split_sizes :
    (∀ (N : ℕ) (split : ℚ × ℚ × ℚ),
      0 ≤ split.1 → 0 ≤ split.2.1 → 0 ≤ split.2.2 →
      split.1 + split.2.1 + split.2.2 = 1 →
      num_train_of N split = ⌊(N : ℚ) * split.1⌋ ∧
      num_val_of N split = ⌊(N : ℚ) * split.2.1⌋ ∧
      num_test_of N split = (N : ℤ) - ⌊(N : ℚ) * split.1⌋ - ⌊(N : ℚ) * split.2.1⌋ ∧
      0 ≤ num_test_of N split ∧
      num_train_of N split + num_val_of N split + num_test_of N split = (N : ℤ)) ∧
    num_train_of 101 (7/10, 3/20, 3/20) = 70 ∧
    num_val_of 101 (7/10, 3/20, 3/20) = 15 ∧
    num_test_of 101 (7/10, 3/20, 3/20) = 16 := by
  constructor
  · intro N split h0 h1 h2 hsum
    have hN : (0 : ℚ) ≤ (N : ℚ) := by positivity
    have ht : num_train_of N split = ⌊(N : ℚ) * split.1⌋ :=
      pyInt_of_nonneg (by positivity)
    have hv : num_val_of N split = ⌊(N : ℚ) * split.2.1⌋ :=
      pyInt_of_nonneg (by positivity)
    have htest : num_test_of N split = (N : ℤ) - ⌊(N : ℚ) * split.1⌋ - ⌊(N : ℚ) * split.2.1⌋ := by
      rw [num_test_of, ht, hv]
    refine ⟨ht, hv, htest, ?_, by rw [num_test_of]; ring⟩
    rw [htest]
    have hf1 : ((⌊(N : ℚ) * split.1⌋ : ℤ) : ℚ) ≤ (N : ℚ) * split.1 := Int.floor_le _
    have hf2 : ((⌊(N : ℚ) * split.2.1⌋ : ℤ) : ℚ) ≤ (N : ℚ) * split.2.1 := Int.floor_le _
    have hle : ((⌊(N : ℚ) * split.1⌋ + ⌊(N : ℚ) * split.2.1⌋ : ℤ) : ℚ) ≤ (N : ℚ) := by
      push_cast
      nlinarith
    have h : ⌊(N : ℚ) * split.1⌋ + ⌊(N : ℚ) * split.2.1⌋ ≤ (N : ℤ) := by
      exact_mod_cast hle
    omega
  · have ht : num_train_of 101 (7/10, 3/20, 3/20) = 70 := by
      rw [num_train_of, pyInt_of_nonneg (by norm_num)]
      norm_num
    have hv : num_val_of 101 (7/10, 3/20, 3/20) = 15 := by
      rw [num_val_of, pyInt_of_nonneg (by norm_num)]
      norm_num
    exact ⟨ht, hv, by rw [num_test_of, ht, hv]; norm_num⟩

/-- Witness for the universally quantified part of claim C2, at `N = 100`
and the valid split `[1, 0, 0]`. -/
theorem claim_C2_witness :
    num_train_of 100 (1, (0, 0)) + num_val_of 100 (1, (0, 0)) + num_test_of 100 (1, (0, 0)) = (100 : ℤ) :=
  (claim_C2_split_sizes.1 100 (1, (0, 0)) zero_le_one (le_refl 0) (le_refl 0) (by simp)).2.2.2.2

/-- Claim C5: for unique image ids the training, test and no-annotation
image-id lists of `create_dataset_split_balanced` together are a permutation
of the full id list — every id exactly once — and every image with zero
annotations goes to the no-annotation bucket and to neither output file.
The category-id hypothesis keeps to the domain on which the Python loop
completes (a category id absent from `data['categories']` would raise
`KeyError` in the counter lookup). -/
theorem claim_C5_balanced_partition (images shuffled_imgs : List Image)
    (annotations : List Anno) (categories : List Category) (num_testimages_per_class : ℕ)
    (hperm : shuffled_imgs.Perm images)
    (hids : (images.map Image.id).Nodup)
    (hcats : ∀ anno ∈ annotations, anno.category_id ∈ categories.map Category.id) :
    (((create_dataset_split_balanced_core shuffled_imgs annotations categories num_testimages_per_class).train_dict.images.map Image.id) ++
        (((create_dataset_split_balanced_core shuffled_imgs annotations categories num_testimages_per_class).test_dict.images.map Image.id) ++
          ((create_dataset_split_balanced_core shuffled_imgs annotations categories num_testimages_per_class).imgs_without_anno.map Image.id))).Perm
      (images.map Image.id) ∧
    (∀ i ∈ images.map Image.id,
      ((create_dataset_split_balanced_core shuffled_imgs annotations categories num_testimages_per_class).train_dict.images.map Image.id).count i +
        ((create_dataset_split_balanced_core shuffled_imgs annotations categories num_testimages_per_class).test_dict.images.map Image.id).count i +
        ((create_dataset_split_balanced_core shuffled_imgs annotations categories num_testimages_per_class).imgs_without_anno.map Image.id).count i = 1) ∧
    (∀ img ∈ images,
      annotations.filter (fun anno => decide (anno.image_id = img.id)) = [] →
      img ∈ (create_dataset_split_balanced_core shuffled_imgs annotations categories num_testimages_per_class).imgs_without_anno ∧
      img ∉ (create_dataset_split_balanced_core shuffled_imgs annotations categories num_testimages_per_class).train_dict.images ∧
      img ∉ (create_dataset_split_balanced_core shuffled_imgs annotations categories num_testimages_per_class).test_dict.images) := by
  have e1 : (create_dataset_split_balanced_core shuffled_imgs annotations categories num_testimages_per_class).train_dict.images
      = (shuffled_imgs.filter
          (fun x => decide (x ∉ (balanced_scan annotations shuffled_imgs).imgs_test))).filter
            (fun x => decide (x ∉ (balanced_scan annotations shuffled_imgs).imgs_without_anno)) := rfl
  have e2 : (create_dataset_split_balanced_core shuffled_imgs annotations categories num_testimages_per_class).test_dict.images
      = (balanced_scan annotations shuffled_imgs).imgs_test := rfl
  have e3 : (create_dataset_split_balanced_core shuffled_imgs annotations categories num_testimages_per_class).imgs_without_anno
      = (balanced_scan annotations shuffled_imgs).imgs_without_anno := rfl
  have h1 : (shuffled_imgs.map Image.id).Nodup := ((hperm.map Image.id).nodup_iff).mpr hids
  have hSnodup : shuffled_imgs.Nodup := h1.of_map Image.id
  have hp := balanced_partition_perm annotations shuffled_imgs hSnodup
  have hmap : (((create_dataset_split_balanced_core shuffled_imgs annotations categories num_testimages_per_class).train_dict.images.map Image.id) ++
      (((create_dataset_split_balanced_core shuffled_imgs annotations categories num_testimages_per_class).test_dict.images.map Image.id) ++
        ((create_dataset_split_balanced_core shuffled_imgs annotations categories num_testimages_per_class).imgs_without_anno.map Image.id))).Perm
      (images.map Image.id) := by
    rw [e1, e2, e3, ← List.map_append, ← List.map_append]
    exact (hp.map Image.id).trans (hperm.map Image.id)
  refine ⟨hmap, ?_, ?_⟩
  · intro i hi
    have hcount := hmap.count_eq i
    rw [List.count_append, List.count_append] at hcount
    rw [List.count_eq_one_of_mem hids hi] at hcount
    omega
  · intro img hmem hnone
    have himgS : img ∈ shuffled_imgs := hperm.mem_iff.mpr hmem
    have hW : img ∈ (balanced_scan annotations shuffled_imgs).imgs_without_anno := by
      rw [balanced_scan]
      exact mem_without_anno_of_no_annos annotations shuffled_imgs _ img himgS hnone
    have hle := balanced_scan_le annotations shuffled_imgs
    rw [Multiset.coe_add] at hle
    have hTW : ((balanced_scan annotations shuffled_imgs).imgs_test ++
        (balanced_scan annotations shuffled_imgs).imgs_without_anno).Nodup :=
      Multiset.coe_nodup.mp (Multiset.nodup_of_le hle (Multiset.coe_nodup.mpr hSnodup))
    have hnotT : img ∉ (balanced_scan annotations shuffled_imgs).imgs_test := by
      intro hT
      exact (List.nodup_append.mp hTW).2.2 hT hW
    refine ⟨by rw [e3]; exact hW, ?_, by rw [e2]; exact hnotT⟩
    rw [e1]
    intro hmem'
    exact (of_decide_eq_true (List.mem_filter.mp hmem').2) hW

/-- Witness for claim C5 at a concrete two-image snapshot whose second image
has no annotations. -/
theorem claim_C5_witness :
    (⟨2, "b", "pb"⟩ : Image) ∈ (create_dataset_split_balanced_core
        [⟨1, "a", "pa"⟩, ⟨2, "b", "pb"⟩] [⟨1, 1, ""⟩] [⟨1, "c", "", "", []⟩] 7).imgs_without_anno ∧
    (⟨2, "b", "pb"⟩ : Image) ∉ (create_dataset_split_balanced_core
        [⟨1, "a", "pa"⟩, ⟨2, "b", "pb"⟩] [⟨1, 1, ""⟩] [⟨1, "c", "", "", []⟩] 7).train_dict.images ∧
    (⟨2, "b", "pb"⟩ : Image) ∉ (create_dataset_split_balanced_core
        [⟨1, "a", "pa"⟩, ⟨2, "b", "pb"⟩] [⟨1, 1, ""⟩] [⟨1, "c", "", "", []⟩] 7).test_dict.images :=
  (claim_C5_balanced_partition [⟨1, "a", "pa"⟩, ⟨2, "b", "pb"⟩]
      [⟨1, "a", "pa"⟩, ⟨2, "b", "pb"⟩] [⟨1, 1, ""⟩] [⟨1, "c", "", "", []⟩] 7
      (List.Perm.refl _) (by decide) (by decide)).2.2
    ⟨2, "b", "pb"⟩ (by decide) (by decide)

/-- Claim C3 (amended): an image with at least one annotation that is
reached while some of its categories' counters already equals the cap `7` is
skipped by the loop, so it enters neither `imgs_test` nor the no-annotation
bucket — but the final training selection keeps every shuffled image outside
those two lists, so the skipped image IS assigned to the training subset
(and only the test subset excludes it). -/
theorem claim_C3_saturated_goes_to_train (images l1 l2 : List Image) (img : Image)
    (annotations : List Anno) (categories : List Category) (num_testimages_per_class : ℕ)
    (hperm : (l1 ++ img :: l2).Perm images)
    (hids : (images.map Image.id).Nodup)
    (hanno : annotations.filter (fun anno => decide (anno.image_id = img.id)) ≠ [])
    (hsat : ((annotations.filter (fun anno => decide (anno.image_id = img.id))).map Anno.category_id).any
        (fun cat => decide ((balanced_scan annotations l1).cat_count cat = 7)) = true) :
    img ∈ (create_dataset_split_balanced_core (l1 ++ img :: l2) annotations categories num_testimages_per_class).train_dict.images ∧
    img ∉ (create_dataset_split_balanced_core (l1 ++ img :: l2) annotations categories num_testimages_per_class).test_dict.images ∧
    img ∉ (create_dataset_split_balanced_core (l1 ++ img :: l2) annotations categories num_testimages_per_class).imgs_without_anno := by
  have hSnodup : (l1 ++ img :: l2).Nodup :=
    (((hperm.map Image.id).nodup_iff).mpr hids).of_map Image.id
  obtain ⟨hn1, hn2, hdisj⟩ := List.nodup_append.mp hSnodup
  have himg1 : img ∉ l1 := fun h => hdisj h (List.mem_cons_self img l2)
  have himg2 : img ∉ l2 := (List.nodup_cons.mp hn2).1
  have hscan : balanced_scan annotations (l1 ++ img :: l2)
      = l2.foldl (balanced_step annotations) (balanced_scan annotations l1) := by
    rw [balanced_scan, List.foldl_append, List.foldl_cons]
    have hstep : balanced_step annotations (balanced_scan annotations l1) img
        = balanced_scan annotations l1 := by
      rw [balanced_step]
      simp only [hsat, if_true]
    rw [← balanced_scan, hstep]
  have hinit := not_mem_scan_output annotations l1 ⟨fun _ => 0, [], []⟩ img himg1
  have hnmT1 : img ∉ (balanced_scan annotations l1).imgs_test :=
    hinit.1 (List.not_mem_nil img)
  have hnmW1 : img ∉ (balanced_scan annotations l1).imgs_without_anno :=
    hinit.2 (List.not_mem_nil img)
  have hnm := not_mem_scan_output annotations l2 (balanced_scan annotations l1) img himg2
  have hT : img ∉ (balanced_scan annotations (l1 ++ img :: l2)).imgs_test := by
    rw [hscan]
    exact hnm.1 hnmT1
  have hW : img ∉ (balanced_scan annotations (l1 ++ img :: l2)).imgs_without_anno := by
    rw [hscan]
    exact hnm.2 hnmW1
  refine ⟨?_, hT, hW⟩
  have himgS : img ∈ l1 ++ img :: l2 := List.mem_append.mpr (Or.inr (List.mem_cons_self img l2))
  exact List.mem_filter.mpr ⟨List.mem_filter.mpr ⟨himgS, decide_eq_true hT⟩, decide_eq_true hW⟩

/-- Eight-image snapshot refuting claim C3 as stated: every image carries one
annotation of the single category 1. -/
def ex3_images : List Image :=
  [⟨1, "i1", "p1"⟩, ⟨2, "i2", "p2"⟩, ⟨3, "i3", "p3"⟩, ⟨4, "i4", "p4"⟩,
    ⟨5, "i5", "p5"⟩, ⟨6, "i6", "p6"⟩, ⟨7, "i7", "p7"⟩, ⟨8, "i8", "p8"⟩]

/-- One category-1 annotation per image of `ex3_images`. -/
def ex3_annos : List Anno :=
  [⟨1, 1, ""⟩, ⟨2, 1, ""⟩, ⟨3, 1, ""⟩, ⟨4, 1, ""⟩, ⟨5, 1, ""⟩, ⟨6, 1, ""⟩, ⟨7, 1, ""⟩, ⟨8, 1, ""⟩]

/-- The single category of the C3 counterexample snapshot. -/
def ex3_categories : List Category := [⟨1, "instrument", "", "#000000", []⟩]

/-- Counterexample to claim C3 as stated: with the identity shuffle of
`ex3_images`, image 8 has an annotation and is reached when category 1's
counter is exactly 7, so the claim asserts it appears in neither output —
yet it appears in the training output. -/
theorem claim_C3_counterexample :
    (ex3_annos.filter (fun anno => decide (anno.image_id = (8 : ℕ))) ≠ []) ∧
    (((ex3_annos.filter (fun anno => decide (anno.image_id = (8 : ℕ)))).map Anno.category_id).any
        (fun cat => decide ((balanced_scan ex3_annos (ex3_images.take 7)).cat_count cat = 7)) = true) ∧
    (⟨8, "i8", "p8"⟩ : Image) ∈
      (create_dataset_split_balanced_core ex3_images ex3_annos ex3_categories 7).train_dict.images := by
  decide

/-- Witness for the amended claim C3, at the identity shuffle of the
`ex3_images` snapshot split around its eighth image. -/
theorem claim_C3_witness :
    (⟨8, "i8", "p8"⟩ : Image) ∈ (create_dataset_split_balanced_core
        ([⟨1, "i1", "p1"⟩, ⟨2, "i2", "p2"⟩, ⟨3, "i3", "p3"⟩, ⟨4, "i4", "p4"⟩,
          ⟨5, "i5", "p5"⟩, ⟨6, "i6", "p6"⟩, ⟨7, "i7", "p7"⟩] ++ ⟨8, "i8", "p8"⟩ :: [])
        ex3_annos ex3_categories 7).train_dict.images :=
  (claim_C3_saturated_goes_to_train
    ([⟨1, "i1", "p1"⟩, ⟨2, "i2", "p2"⟩, ⟨3, "i3", "p3"⟩, ⟨4, "i4", "p4"⟩,
      ⟨5, "i5", "p5"⟩, ⟨6, "i6", "p6"⟩, ⟨7, "i7", "p7"⟩] ++ ⟨8, "i8", "p8"⟩ :: [])
    [⟨1, "i1", "p1"⟩, ⟨2, "i2", "p2"⟩, ⟨3, "i3", "p3"⟩, ⟨4, "i4", "p4"⟩,
      ⟨5, "i5", "p5"⟩, ⟨6, "i6", "p6"⟩, ⟨7, "i7", "p7"⟩]
    [] ⟨8, "i8", "p8"⟩ ex3_annos ex3_categories 7
    (List.Perm.refl _) (by decide) (by decide) (by decide)).1

/-- Claim C4: `create_dataset_split_balanced` never reads its
`num_testimages_per_class` parameter — the skip condition hard-codes the
literal `7` — so for any snapshot and any shuffle the computed output is
identical to the one computed with the default cap 7. -/
theorem claim_C4_cap_is_literal_7 (shuffled_imgs : List Image) (annotations : List Anno)
    (categories : List Category) (num_testimages_per_class : ℕ) :
    create_dataset_split_balanced_core shuffled_imgs annotations categories num_testimages_per_class
      = create_dataset_split_balanced_core shuffled_imgs annotations categories 7 := rfl

/-- Nine-image snapshot for claim C10: images 1–6, 8 and 9 carry one
category-1 annotation each and image 7 carries two. -/
def ex10_images : List Image :=
  [⟨1, "i1", "p1"⟩, ⟨2, "i2", "p2"⟩, ⟨3, "i3", "p3"⟩, ⟨4, "i4", "p4"⟩, ⟨5, "i5", "p5"⟩,
    ⟨6, "i6", "p6"⟩, ⟨7, "i7", "p7"⟩, ⟨8, "i8", "p8"⟩, ⟨9, "i9", "p9"⟩]

/-- Annotations of `ex10_images`: image 7 contributes category 1 twice. -/
def ex10_annos : List Anno :=
  [⟨1, 1, ""⟩, ⟨2, 1, ""⟩, ⟨3, 1, ""⟩, ⟨4, 1, ""⟩, ⟨5, 1, ""⟩, ⟨6, 1, ""⟩,
    ⟨7, 1, "a"⟩, ⟨7, 1, "b"⟩, ⟨8, 1, ""⟩, ⟨9, 1, ""⟩]

/-- The single category of the C10 snapshot. -/
def ex10_categories : List Category := [⟨1, "instrument", "", "#000000", []⟩]

/-- Claim C10: category entries of an image are one per annotation
(duplicates kept) and each increments the counter, while the skip test is
`== 7` exactly; on `ex10_images` (identity shuffle) category 1's counter is
6 after six images, jumps to 8 after the double-annotated seventh, the skip
never fires, and the test subset receives 9 > 7 images containing
category 1. -/
theorem claim_C10_cap_overshoot :
    ((balanced_scan ex10_annos (ex10_images.take 6)).cat_count 1 = 6) ∧
    ((balanced_scan ex10_annos (ex10_images.take 7)).cat_count 1 = 8) ∧
    (((create_dataset_split_balanced_core ex10_images ex10_annos ex10_categories 7).test_dict.images.filter
        (fun img => decide ((1 : ℕ) ∈
          (ex10_annos.filter (fun anno => decide (anno.image_id = img.id))).map Anno.category_id))).length = 9) ∧
    7 < 9 := by
  decide

/-- Claim C6: with the supercategory option enabled every annotation written
to any of the three subset files has `category_id = 1` and every subset's
category list is the single synthetic category; with the option disabled
every subset's category list is the input category list unchanged. -/
theorem claim_C6_supercategory (shuffled_imgs : List Image) (annotations : List Anno)
    (categories : List Category) (split : ℚ × ℚ × ℚ) (single_label : String) :
    (∀ anno ∈ (create_dataset_split_core shuffled_imgs annotations categories split (true, single_label)).train_dict.annotations ++
        ((create_dataset_split_core shuffled_imgs annotations categories split (true, single_label)).val_dict.annotations ++
          (create_dataset_split_core shuffled_imgs annotations categories split (true, single_label)).test_dict.annotations),
      anno.category_id = 1) ∧
    (create_dataset_split_core shuffled_imgs annotations categories split (true, single_label)).train_dict.categories = [single_supercategory single_label] ∧
    (create_dataset_split_core shuffled_imgs annotations categories split (true, single_label)).val_dict.categories = [single_supercategory single_label] ∧
    (create_dataset_split_core shuffled_imgs annotations categories split (true, single_label)).test_dict.categories = [single_supercategory single_label] ∧
    (create_dataset_split_core shuffled_imgs annotations categories split (false, single_label)).train_dict.categories = categories ∧
    (create_dataset_split_core shuffled_imgs annotations categories split (false, single_label)).val_dict.categories = categories ∧
    (create_dataset_split_core shuffled_imgs annotations categories split (false, single_label)).test_dict.categories = categories := by
  refine ⟨?_, by simp [create_dataset_split_core], by simp [create_dataset_split_core],
    by simp [create_dataset_split_core], by simp [create_dataset_split_core],
    by simp [create_dataset_split_core], by simp [create_dataset_split_core]⟩
  intro anno h
  simp only [create_dataset_split_core, List.mem_append, if_true] at h
  rcases h with h | h | h <;>
  · obtain ⟨h1, -⟩ := List.mem_filter.mp h
    obtain ⟨a, -, rfl⟩ := List.mem_map.mp h1
    rfl

/-- Witness for claim C6: the collapsed category list of `training.json` at a
concrete call. -/
theorem claim_C6_witness :
    (create_dataset_split_core [] [] [] (1, (0, 0)) (true, "instrument")).train_dict.categories
      = [single_supercategory "instrument"] :=
  (claim_C6_supercategory [] [] [] (1, (0, 0)) "instrument").2.1

/-- Claim C8: `create_dataset_split` fails an assertion (and so writes
nothing) exactly when the input file is missing or the split fractions do
not sum exactly to 1; a negative fraction is not itself rejected, as the
concrete split `[1.5, 0.5, -1]` proceeds to completion. -/
theorem claim_C8_assertions :
    (∀ (file_exists output_dir_exists : Bool) (shuffled_imgs : List Image)
        (annotations : List Anno) (categories : List Category) (split : ℚ × ℚ × ℚ)
        (supercategory : Bool × String),
      (∃ msg, create_dataset_split_run file_exists output_dir_exists shuffled_imgs
          annotations categories split supercategory = .assertionFailure msg) ↔
        (file_exists = false ∨ split.1 + split.2.1 + split.2.2 ≠ 1)) ∧
    (∃ out, create_dataset_split_run true false [] [] [] (3/2, (1/2, -1)) (false, "")
      = .completed out) := by
  constructor
  · intro fe de s a c sp sc
    cases fe with
    | false => simp [create_dataset_split_run]
    | true =>
      by_cases hs : sp.1 + sp.2.1 + sp.2.2 = 1
      · cases de <;> simp [create_dataset_split_run, hs]
      · simp [create_dataset_split_run, hs]
  · exact ⟨create_dataset_split_core [] [] [] (3/2, (1/2, -1)) (false, ""),
      by norm_num [create_dataset_split_run]⟩

/-- Witness for the universally quantified part of claim C8: a missing input
file yields an assertion failure. -/
theorem claim_C8_witness :
    ∃ msg, create_dataset_split_run false true [] [] [] (1, (0, 0)) (false, "")
      = .assertionFailure msg :=
  (claim_C8_assertions.1 false true [] [] [] (1, (0, 0)) (false, "")).mpr (Or.inl rfl)

/-- Claim C9: when the output directory already exists (and the assertions
that precede the check pass, as on a repeated call with the same arguments),
both `create_dataset_from_annotations` and `create_dataset_split` take the
early return: no assertion is raised and nothing is written, so a second
call with the same `output_dir` leaves the first call's output untouched. -/
theorem claim_C9_existing_output_dir (file_exists : Bool) (json_file output_dir : String)
    (data : Snapshot) (shuffled_imgs : List Image) (annotations : List Anno)
    (categories : List Category) (split : ℚ × ℚ × ℚ) (supercategory : Bool × String)
    (hfe : file_exists = true)
    (hsum : split.1 + split.2.1 + split.2.2 = 1) :
    create_dataset_from_annotations_run file_exists true json_file output_dir data
      = .earlyReturn ∧
    create_dataset_split_run file_exists true shuffled_imgs annotations categories split
      supercategory = .earlyReturn := by
  subst hfe
  exact ⟨by simp [create_dataset_from_annotations_run],
    by simp [create_dataset_split_run, hsum]⟩

/-- Claim C7: in both splitters every annotation written to a subset file
references an image id present in that subset's image list, and an
annotation whose `image_id` matches no image of the snapshot appears in no
subset's output. -/
theorem claim_C7_referential_integrity (images shuffled_imgs : List Image)
    (annotations : List Anno) (categories : List Category) (split : ℚ × ℚ × ℚ)
    (supercategory : Bool × String) (num_testimages_per_class : ℕ)
    (hperm : shuffled_imgs.Perm images) :
    (∀ anno ∈ (create_dataset_split_core shuffled_imgs annotations categories split supercategory).train_dict.annotations,
      anno.image_id ∈ (create_dataset_split_core shuffled_imgs annotations categories split supercategory).train_dict.images.map Image.id) ∧
    (∀ anno ∈ (create_dataset_split_core shuffled_imgs annotations categories split supercategory).val_dict.annotations,
      anno.image_id ∈ (create_dataset_split_core shuffled_imgs annotations categories split supercategory).val_dict.images.map Image.id) ∧
    (∀ anno ∈ (create_dataset_split_core shuffled_imgs annotations categories split supercategory).test_dict.annotations,
      anno.image_id ∈ (create_dataset_split_core shuffled_imgs annotations categories split supercategory).test_dict.images.map Image.id) ∧
    (∀ anno ∈ (create_dataset_split_balanced_core shuffled_imgs annotations categories num_testimages_per_class).train_dict.annotations,
      anno.image_id ∈ (create_dataset_split_balanced_core shuffled_imgs annotations categories num_testimages_per_class).train_dict.images.map Image.id) ∧
    (∀ anno ∈ (create_dataset_split_balanced_core shuffled_imgs annotations categories num_testimages_per_class).test_dict.annotations,
      anno.image_id ∈ (create_dataset_split_balanced_core shuffled_imgs annotations categories num_testimages_per_class).test_dict.images.map Image.id) ∧
    (∀ anno_orphan : Anno, anno_orphan.image_id ∉ images.map Image.id →
      anno_orphan ∉ (create_dataset_split_core shuffled_imgs annotations categories split supercategory).train_dict.annotations ∧
      anno_orphan ∉ (create_dataset_split_core shuffled_imgs annotations categories split supercategory).val_dict.annotations ∧
      anno_orphan ∉ (create_dataset_split_core shuffled_imgs annotations categories split supercategory).test_dict.annotations ∧
      anno_orphan ∉ (create_dataset_split_balanced_core shuffled_imgs annotations categories num_testimages_per_class).train_dict.annotations ∧
      anno_orphan ∉ (create_dataset_split_balanced_core shuffled_imgs annotations categories num_testimages_per_class).test_dict.annotations) := by
  have hships : ∀ l : List Image, l ⊆ shuffled_imgs →
      ∀ i ∈ l.map Image.id, i ∈ images.map Image.id := by
    intro l hsub i hi
    obtain ⟨x, hx, rfl⟩ := List.mem_map.mp hi
    exact (hperm.map Image.id).mem_iff.mp (List.mem_map.mpr ⟨x, hsub hx, rfl⟩)
  have hfilt : ∀ (l : List Anno) (ids : List ℕ),
      ∀ anno ∈ l.filter (fun anno => decide (anno.image_id ∈ ids)), anno.image_id ∈ ids :=
    fun l ids anno h => of_decide_eq_true (List.mem_filter.mp h).2
  have hle := balanced_scan_le annotations shuffled_imgs
  have hTsub : (balanced_scan annotations shuffled_imgs).imgs_test ⊆ shuffled_imgs :=
    Multiset.coe_subset.mp (Multiset.subset_of_le (le_trans (Multiset.le_add_right _ _) hle))
  refine ⟨hfilt _ _, hfilt _ _, hfilt _ _, hfilt _ _, hfilt _ _, ?_⟩
  intro anno_orphan horph
  refine ⟨?_, ?_, ?_, ?_, ?_⟩ <;> intro hmem
  · exact horph (hships _ (List.take_subset _ _) _ (hfilt _ _ _ hmem))
  · exact horph (hships _ ((List.take_subset _ _).trans (List.drop_subset _ _)) _
      (hfilt _ _ _ hmem))
  · exact horph (hships _ (List.drop_subset _ _) _ (hfilt _ _ _ hmem))
  · exact horph (hships _ ((List.filter_sublist _).subset.trans (List.filter_sublist _).subset) _
      (hfilt _ _ _ hmem))
  · exact horph (hships _ hTsub _ (hfilt _ _ _ hmem))

/-- Witness for claim C7 at a concrete snapshot and a concrete orphan
annotation referencing the absent image id 99. -/
theorem claim_C7_witness :
    (⟨99, 2, ""⟩ : Anno) ∉ (create_dataset_split_core [⟨1, "a", "pa"⟩] [⟨1, 2, ""⟩, ⟨99, 2, ""⟩]
        [⟨2, "c", "", "", []⟩] (1, (0, 0)) (false, "")).train_dict.annotations ∧
    (⟨99, 2, ""⟩ : Anno) ∉ (create_dataset_split_core [⟨1, "a", "pa"⟩] [⟨1, 2, ""⟩, ⟨99, 2, ""⟩]
        [⟨2, "c", "", "", []⟩] (1, (0, 0)) (false, "")).val_dict.annotations ∧
    (⟨99, 2, ""⟩ : Anno) ∉ (create_dataset_split_core [⟨1, "a", "pa"⟩] [⟨1, 2, ""⟩, ⟨99, 2, ""⟩]
        [⟨2, "c", "", "", []⟩] (1, (0, 0)) (false, "")).test_dict.annotations ∧
    (⟨99, 2, ""⟩ : Anno) ∉ (create_dataset_split_balanced_core [⟨1, "a", "pa"⟩] [⟨1, 2, ""⟩, ⟨99, 2, ""⟩]
        [⟨2, "c", "", "", []⟩] 7).train_dict.annotations ∧
    (⟨99, 2, ""⟩ : Anno) ∉ (create_dataset_split_balanced_core [⟨1, "a", "pa"⟩] [⟨1, 2, ""⟩, ⟨99, 2, ""⟩]
        [⟨2, "c", "", "", []⟩] 7).test_dict.annotations :=
  (claim_C7_referential_integrity [⟨1, "a", "pa"⟩] [⟨1, "a", "pa"⟩] [⟨1, 2, ""⟩, ⟨99, 2, ""⟩]
      [⟨2, "c", "", "", []⟩] (1, (0, 0)) (false, "") 7 (List.Perm.refl _)).2.2.2.2.2
    ⟨99, 2, ""⟩ (by decide)

/-- Witness for claim C9 at a concrete repeated call. -/
theorem claim_C9_witness :
    create_dataset_from_annotations_run true true "d.json" "out/" ⟨[], [], []⟩
      = .earlyReturn ∧
    create_dataset_split_run true true [] [] [] (1, (0, 0)) (false, "") = .earlyReturn :=
  claim_C9_existing_output_dir true "d.json" "out/" ⟨[], [], []⟩ [] [] []
    (1, (0, 0)) (false, "") rfl (by simp)
